import Mathlib

/-!
Verification of the Inbucket daemon launcher and POP3 listener.

Shallow embedding of three Go source files:
* the daemon launcher (`main`, `ServerTuple`, `timedExit`, the signal loop),
* `pkg/message` (`ParseDelivery`, `Metadata`, `Delivery`),
* `pkg/server/pop3/listener.go` (`Start`, `serve`, `emergencyShutdown`, `Drain`).

Go channels, panics and times are made explicit: a channel close on an
already-closed channel is a panic, modelled with `Except Unit`; durations are
`Nat` nanoseconds (`time.Duration` is an integer nanosecond count); indexing a
slice out of range is a panic, modelled by an explicit result constructor.
-/

namespace Inbucket

/-! ## pkg/message: ParseDelivery -/

/-- Go `net/mail.Address`: a parsed address with display name and spec. -/
structure Address where
  name : String
  address : String
deriving DecidableEq

/-- The slice of an `enmime.Envelope` that `ParseDelivery` consumes:
`AddressList("From")` and `AddressList("To")` with their errors discarded
(enmime yields a nil list when the header is missing or unparseable),
`GetHeader("Subject")`, and the raw `Date:` header (present in the envelope
but never read by `ParseDelivery`). -/
structure Envelope where
  fromAddrs : List Address
  toAddrs : List Address
  dateHeader : Option String
  subject : String
deriving DecidableEq

/-- Result of `enmime.ReadEnvelope`: either a parse error or an envelope. -/
inductive ReadEnvelopeResult where
  | err (e : String)
  | ok (env : Envelope)
deriving DecidableEq

/-- Go `message.Metadata`: information about a message, but not the content.
`Date` is a `Nat` clock value. -/
structure Metadata where
  Mailbox : String
  From : Address
  To : List Address
  Date : Nat
  Subject : String
deriving DecidableEq

/-- Go `message.Delivery` (the `Reader` field is I/O and carries no metadata). -/
structure Delivery where
  Meta : Metadata
deriving DecidableEq

/-- Outcome of a call to `ParseDelivery`: an error, a Go runtime panic, or a
delivery. -/
inductive ParseDeliveryResult where
  | err (e : String)
  | panicked
  | ok (d : Delivery)
deriving DecidableEq

/-- Embeds `message.ParseDelivery`: propagate a `ReadEnvelope` error; otherwise take
`fromaddr[0]` of `AddressList("From")` — a panic when that list is empty —
and build the metadata with `Date: time.Now()` (the `now` argument) and
`Subject: env.GetHeader("Subject")`. -/
def ParseDelivery (input : ReadEnvelopeResult) (mailbox : String) (now : Nat) :
    ParseDeliveryResult :=
  match input with
  | .err e => .err e
  | .ok env =>
    match env.fromAddrs with
    | [] => .panicked
    | f :: _ =>
      .ok { Meta := { Mailbox := mailbox, From := f, To := env.toAddrs,
                      Date := now, Subject := env.subject } }

/-! ## Daemon launcher: ServerTuple -/

/-- An abstract `server.IServer`: we only track its identity so that the
drain trace can record which member was drained. -/
abbrev ServerId := Nat

/-- Launcher `ServerTuple`: optional v4 and v6 members; `none` is a
Go nil interface. -/
structure ServerTuple where
  v4 : Option ServerId
  v6 : Option ServerId
deriving DecidableEq

/-- Calling `Drain()` on a member: on a nil interface this is a Go nil
dereference panic (`Except.error`), otherwise it records one drain of that
member. -/
def drainCall (s : Option ServerId) : Except Unit (List ServerId) :=
  match s with
  | none => .error ()
  | some x => .ok [x]

/-- Embeds `ServerTuple.Drain`: `if st.v4 != nil { st.v4.Drain() }` then
`if st.v6 != nil { st.v6.Drain() }`, returning the trace of drained
members in call order. -/
def ServerTuple.DrainTrace (st : ServerTuple) : Except Unit (List ServerId) := do
  let t1 ← if st.v4.isSome then drainCall st.v4 else pure []
  let t2 ← if st.v6.isSome then drainCall st.v6 else pure []
  pure (t1 ++ t2)

/-! ## pop3/listener.go: accept-loop backoff -/

/-- The backoff update in `Server.serve` on a temporary accept error, in
nanoseconds: `if tempDelay == 0 { tempDelay = 5ms } else { tempDelay *= 2 };
if tempDelay > 1s { tempDelay = 1s }`. -/
def nextTempDelay (tempDelay : Nat) : Nat :=
  let d := if tempDelay = 0 then 5000000 else tempDelay * 2
  if d > 1000000000 then 1000000000 else d

/-- Outcome of one `listener.Accept()` call. -/
inductive AcceptOutcome where
  | okConn
  | tempErr
  | permErr
deriving DecidableEq

/-- How `serve` updates `tempDelay` at each loop iteration: a successful
accept executes `tempDelay = 0`; a temporary error applies the backoff
update; a permanent error exits the loop without touching the delay. -/
def serveDelayStep (tempDelay : Nat) : AcceptOutcome → Nat
  | .okConn => 0
  | .tempErr => nextTempDelay tempDelay
  | .permErr => tempDelay

/-- The sleep used after the k-th consecutive temporary accept error,
starting from a fresh loop (or any successful accept, where `tempDelay` is
zero). -/
def delayAfter : Nat → Nat
  | 0 => 0
  | k + 1 => nextTempDelay (delayAfter k)

/-! ## pop3/listener.go: shutdown channel, permanent errors -/

/-- Go `close(ch)` on the boolean "is the channel closed" state: closing an
already-closed channel panics. -/
def closeChan (closed : Bool) : Except Unit Bool :=
  if closed then .error () else .ok true

/-- Embeds `Server.emergencyShutdown`: a `select` on the global shutdown channel with
a `default` branch. A closed channel makes the receive case ready (no-op);
otherwise the default branch closes the channel. -/
def emergencyShutdown (closed : Bool) : Except Unit Bool :=
  if closed then .ok closed else closeChan closed

/-- The listener-visible state when `serve` hits a permanent accept error:
whether the global shutdown channel is closed and whether the root context
is cancelled. -/
structure ListenerState where
  chanClosed : Bool
  ctxCancelled : Bool
deriving DecidableEq, Fintype

/-- How `serve` returned after a permanent error. -/
inductive ServeExit where
  | cleanReturn
  | shutdownReturn
deriving DecidableEq

/-- The permanent-error branch of `Server.serve`: `select` on `ctx.Done()`
(ready iff the context is cancelled) with a `default` branch that calls
`emergencyShutdown`; both branches return from the loop. -/
def servePermError (st : ListenerState) : Except Unit (ListenerState × ServeExit) :=
  if st.ctxCancelled then
    .ok (st, .cleanReturn)
  else
    match emergencyShutdown st.chanClosed with
    | .error e => .error e
    | .ok c => .ok ({ st with chanClosed := c }, .shutdownReturn)

/-- The failure paths of `Server.Start`: a `ResolveTCPAddr` or `ListenTCP`
error calls `emergencyShutdown` unconditionally and returns. -/
def startFailure (st : ListenerState) : Except Unit ListenerState :=
  match emergencyShutdown st.chanClosed with
  | .error e => .error e
  | .ok c => .ok { st with chanClosed := c }

/-! ## pop3/listener.go: wait-group and Drain -/

/-- Events of the accept loop and sessions, interleaved with `Drain`:
`acceptOk` is the success branch of `serve` (`wg.Add(1)` immediately followed by
`go s.startSession(sid, conn)`, so the increment happens before the session
exists); `sessionExit sid` is a session goroutine finishing.
Modelled from the spec: `startSession` is not among the given sources; the
spec states that each accepted connection increments the listener wait-group and
each session decrements on exit, so a session exit performs `wg.Done()`.
`drainReturn` is the return of the `wg.Wait()` call in `Drain`, which `sync.WaitGroup`
permits only at counter zero. -/
inductive PopEvent where
  | acceptOk
  | sessionExit (sid : Nat)
  | drainReturn
deriving DecidableEq

/-- State of one POP3 listener: the wait-group counter, the session ids
currently running, the next session id, and whether `Drain` has returned. -/
structure PopState where
  wgCount : Nat
  running : List Nat
  nextSid : Nat
  drained : Bool
deriving DecidableEq

/-- Listener state at startup. -/
def popInit : PopState :=
  { wgCount := 0, running := [], nextSid := 1, drained := false }

/-- One interleaving step; `none` when the event cannot occur in that state
(a session that is not running cannot exit; `wg.Wait()` does not return
while the counter is positive). -/
def popStep (st : PopState) : PopEvent → Option PopState
  | .acceptOk =>
    some { st with wgCount := st.wgCount + 1,
                   running := st.nextSid :: st.running,
                   nextSid := st.nextSid + 1 }
  | .sessionExit sid =>
    if sid ∈ st.running then
      some { st with wgCount := st.wgCount - 1, running := st.running.erase sid }
    else none
  | .drainReturn =>
    if st.wgCount = 0 then some { st with drained := true } else none

/-- Run a sequence of interleaving events from a state. -/
def popRun (st : PopState) : List PopEvent → Option PopState
  | [] => some st
  | e :: es =>
    match popStep st e with
    | none => none
    | some st2 => popRun st2 es

/-! ## Daemon launcher: signal loop -/

/-- The signals `signal.Notify` registers: SIGINT and SIGTERM. -/
inductive Sig where
  | sigint
  | sigterm
deriving DecidableEq

/-- State of the signal loop in `main`: the signals still to be read from
`sigChan`, whether `shutdownChan` is closed, whether `rootCancel` has run,
and whether the loop has exited via `break signalLoop`. -/
structure MainState where
  pending : List Sig
  chanClosed : Bool
  ctxCancelled : Bool
  exited : Bool
deriving DecidableEq

/-- Which `select` case the scheduler picks; Go picks uniformly among the
ready cases, so any ready case can be picked. -/
inductive LoopChoice where
  | fromSig
  | fromShutdown
deriving DecidableEq

/-- One iteration of the `signalLoop` `select`. Picking a case that is not
ready is a no-op (the Go `select` never picks it). The `sigChan` case runs
`close(shutdownChan)` unguarded for both SIGINT and SIGTERM; the
`shutdownChan` case is ready once the channel is closed and runs
`rootCancel()` then `break signalLoop`. -/
def signalLoopStep (st : MainState) : LoopChoice → Except Unit MainState
  | .fromSig =>
    if st.exited then .ok st else
    match st.pending with
    | [] => .ok st
    | _ :: rest =>
      match closeChan st.chanClosed with
      | .error e => .error e
      | .ok c => .ok { st with pending := rest, chanClosed := c }
  | .fromShutdown =>
    if st.exited then .ok st else
    if st.chanClosed then .ok { st with ctxCancelled := true, exited := true }
    else .ok st

/-- Run the signal loop under a schedule of `select` choices. -/
def signalLoopRun (st : MainState) : List LoopChoice → Except Unit MainState
  | [] => .ok st
  | c :: cs =>
    match signalLoopStep st c with
    | .error e => .error e
    | .ok st2 => signalLoopRun st2 cs

/-- The starting state of the signal loop when the signals `sigs` will be
delivered: channel open, context live, loop running. -/
def mainLoopInit (sigs : List Sig) : MainState :=
  { pending := sigs, chanClosed := false, ctxCancelled := false, exited := false }

/-- The statements `main` executes after `break signalLoop`, in program
order, ending with the return from `main` (process exit). -/
inductive MainAction where
  | spawnTimedExit
  | drainSMTP
  | drainPOP3
  | scannerJoin
  | removePid
  | closeLogFile
  | processExit
deriving DecidableEq, BEq

/-- Lines 206-214 of `main`: `go timedExit(..)`, `smtpServerTuple.Drain()`,
`pop3ServerTuple.Drain()`, `retentionScanner.Join()`, `removePIDFile(..)`,
`closeLog()`, return. -/
def shutdownSequence : List MainAction :=
  [.spawnTimedExit, .drainSMTP, .drainPOP3, .scannerJoin, .removePid,
   .closeLogFile, .processExit]

/-! ## Daemon launcher: forced-exit watchdog -/

/-- Sleep duration of `timedExit`: `15 * time.Second`, in nanoseconds. The constant is
written in `timedExit` itself and does not read any listener state. -/
def timedExitSleepNs : Nat := 15 * 1000000000

/-- A shutdown run: how long the `Drain()` call of each listener takes, in
nanoseconds; `main` drains the tuples one after the other. -/
structure DrainScenario where
  drainTimes : List Nat
deriving DecidableEq

/-- Total drain duration: the sequential `Drain()` calls finish when the
last one does. -/
def totalDrain (s : DrainScenario) : Nat := s.drainTimes.sum

/-- How the process ends, and at what time after shutdown began. -/
inductive ShutdownOutcome where
  | forcedExit (t : Nat)
  | cleanExit (t : Nat)
deriving DecidableEq

/-- The race between the drains and the watchdog: `main` spawns `timedExit`
once, before draining; `timedExit` sleeps `timedExitSleepNs` then calls
`os.Exit(0)` unconditionally, so a drain that is still in progress at that
moment is cut short; otherwise `main` returns when the drains finish. -/
def shutdownOutcome (s : DrainScenario) : ShutdownOutcome :=
  if totalDrain s > timedExitSleepNs then .forcedExit timedExitSleepNs
  else .cleanExit (totalDrain s)

/-! ## Helper lemmas -/

/-- Backoff step on a nonzero delay: double, capped at one second. -/
theorem nextTempDelay_pos (a : Nat) (ha : a ≠ 0) :
    nextTempDelay a = min (a * 2) 1000000000 := by
  simp only [nextTempDelay, if_neg ha]
  rw [Nat.min_def]
  split <;> split <;> omega

/-- Closed form of the backoff sequence. -/
theorem delayAfter_closed (k : Nat) :
    delayAfter (k + 1) = min (5000000 * 2 ^ k) 1000000000 := by
  induction k with
  | zero => rfl
  | succ n ih =>
    show nextTempDelay (delayAfter (n + 1)) = _
    rw [ih, nextTempDelay_pos _ (by positivity)]
    have h2 : 5000000 * 2 ^ (n + 1) = 5000000 * 2 ^ n * 2 := by ring
    rw [h2, Nat.min_def, Nat.min_def]
    split <;> split <;> omega

/-- The backoff sequence is positive after the first temporary error. -/
theorem delayAfter_ne_zero (k : Nat) (hk : 1 ≤ k) : delayAfter k ≠ 0 := by
  obtain ⟨n, rfl⟩ := Nat.exists_eq_add_of_le hk
  rw [Nat.add_comm, delayAfter_closed]
  have : 0 < 5000000 * 2 ^ n := by positivity
  omega

/-! ## Claims about ParseDelivery -/

/-- C1. The spec claims `ParseDelivery` never fails a delivery whose body
was received: malformed headers yield best-effort metadata and a
`Delivery`. The code instead evaluates `fromaddr[0]` on the address list of
the `From:` header without checking its length, so a message whose headers
parse but contain no parseable `From` address panics instead of returning a
`Delivery`. This theorem evaluates the code at such an input: the envelope
parsed (body received, no `ReadEnvelope` error) but the `From` list is
empty. -/
theorem C1_parse_panics_on_missing_from :
    ParseDelivery
      (.ok { fromAddrs := [], toAddrs := [], dateHeader := none, subject := "" })
      "alice" 0 = .panicked := rfl

/-- C5. `ParseDelivery` stamps `Date` with the ingest-time clock value
(`time.Now()`, the `now` argument): every successful parse carries
`Date = now`, and the result is unchanged when the `Date:` header of the
message is replaced by any other value. -/
theorem C5_date_is_ingest_time :
    (∀ input mailbox now d,
        ParseDelivery input mailbox now = .ok d → d.Meta.Date = now) ∧
    (∀ env : Envelope, ∀ dh1 dh2 mailbox now,
        ParseDelivery (.ok { env with dateHeader := dh1 }) mailbox now =
          ParseDelivery (.ok { env with dateHeader := dh2 }) mailbox now) := by
  constructor
  · intro input mailbox now d h
    cases input with
    | err e => simp [ParseDelivery] at h
    | ok env =>
      cases henv : env.fromAddrs with
      | nil => simp [ParseDelivery, henv] at h
      | cons f rest =>
        simp only [ParseDelivery, henv] at h
        cases h
        rfl
  · intro env dh1 dh2 mailbox now
    obtain ⟨fa, ta, dh, su⟩ := env
    cases fa <;> rfl

/-- C5 witness: a concrete successful parse at clock value 7 whose
metadata `Date` is 7. -/
theorem C5_date_is_ingest_time_witness :
    ParseDelivery
      (.ok { fromAddrs := [{ name := "", address := "a@b" }], toAddrs := [],
             dateHeader := some "Mon, 1 Jan 1990 00:00:00 +0000", subject := "s" })
      "a" 7 =
      .ok { Meta := { Mailbox := "a", From := { name := "", address := "a@b" },
                      To := [], Date := 7, Subject := "s" } } ∧
    ({ Meta := { Mailbox := "a", From := { name := "", address := "a@b" },
                 To := [], Date := 7, Subject := "s" } } : Delivery).Meta.Date = 7 :=
  ⟨rfl,
   C5_date_is_ingest_time.1
     (.ok { fromAddrs := [{ name := "", address := "a@b" }], toAddrs := [],
            dateHeader := some "Mon, 1 Jan 1990 00:00:00 +0000", subject := "s" })
     "a" 7
     { Meta := { Mailbox := "a", From := { name := "", address := "a@b" },
                 To := [], Date := 7, Subject := "s" } }
     rfl⟩

/-- C9. An input whose envelope parses successfully (so `ReadEnvelope`
returns no error) but whose `From:` header yields no parseable address makes
`ParseDelivery` evaluate `fromaddr[0]` on an empty list: a Go runtime
panic, not a returned `Delivery` and not a returned error. -/
theorem C9_empty_from_list_panics :
    ParseDelivery
      (.ok { fromAddrs := [],
             toAddrs := [{ name := "", address := "bob@example.com" }],
             dateHeader := some "Tue, 2 Jan 1990 00:00:00 +0000",
             subject := "hello" })
      "bob" 42 = .panicked ∧
    (∀ d, ParseDeliveryResult.panicked ≠ .ok d) ∧
    (∀ e, ParseDeliveryResult.panicked ≠ .err e) :=
  ⟨rfl, fun _ h => ParseDeliveryResult.noConfusion h,
   fun _ h => ParseDeliveryResult.noConfusion h⟩

/-! ## Claim about ServerTuple.Drain -/

/-- C10. `ServerTuple.Drain` is total over partially populated tuples: for
every combination of nil and non-nil members it performs no nil
dereference (the nil checks guard each call), and the drain trace is
exactly the optional v4 drain followed by the optional v6 drain — each
non-nil member drained exactly once, v4 always before v6. -/
theorem C10_tuple_drain_total (st : ServerTuple) :
    st.DrainTrace = .ok (st.v4.toList ++ st.v6.toList) := by
  obtain ⟨v4, v6⟩ := st
  cases v4 <;> cases v6 <;> rfl

/-! ## Claims about the accept loop -/

/-- C3. The retry delay of the POP3 accept loop: after any successful
accept the delay is reset to zero; the first temporary error sets it to
5 ms; each subsequent temporary error doubles it, capped so that it never
exceeds 1 s; in closed form the k-th consecutive temporary error sleeps
`min (5 ms * 2 ^ (k-1)) 1 s`. Durations are nanoseconds. -/
theorem C3_accept_backoff :
    delayAfter 1 = 5000000 ∧
    (∀ k, 1 ≤ k → delayAfter (k + 1) = min (2 * delayAfter k) 1000000000) ∧
    (∀ k, delayAfter (k + 1) = min (5000000 * 2 ^ k) 1000000000) ∧
    (∀ k, delayAfter k ≤ 1000000000) ∧
    (∀ d, serveDelayStep d .okConn = 0) := by
  refine ⟨rfl, ?_, delayAfter_closed, ?_, fun d => rfl⟩
  · intro k hk
    show nextTempDelay (delayAfter k) = _
    rw [nextTempDelay_pos _ (delayAfter_ne_zero k hk), Nat.mul_comm]
  · intro k
    cases k with
    | zero => exact Nat.zero_le _
    | succ n =>
      rw [delayAfter_closed]
      exact Nat.min_le_right _ _

/-- C3 witness: the third consecutive temporary error doubles the second
delay (10 ms to 20 ms, below the 1 s cap). -/
theorem C3_accept_backoff_witness :
    1 ≤ 2 ∧ delayAfter 3 = min (2 * delayAfter 2) 1000000000 ∧
    delayAfter 3 = 20000000 :=
  ⟨by decide, C3_accept_backoff.2.1 2 (by decide), by decide⟩

/-- C4. Permanent-error handling: when the accept loop hits a permanent
error with the root context already cancelled, `serve` returns cleanly with
the listener state untouched; with a live context it closes the global
shutdown channel (via the guarded `emergencyShutdown`) and returns; and a
resolve or bind failure in `Start` closes the shutdown channel and returns,
in every starting state and without panicking. -/
theorem C4_perm_error_shutdown :
    (∀ st : ListenerState, st.ctxCancelled = true →
        servePermError st = .ok (st, .cleanReturn)) ∧
    (∀ st : ListenerState, st.ctxCancelled = false →
        servePermError st =
          .ok ({ st with chanClosed := true }, .shutdownReturn)) ∧
    (∀ st : ListenerState, startFailure st = .ok { st with chanClosed := true }) := by
  refine ⟨?_, ?_, ?_⟩
  · rintro ⟨c, x⟩ h
    subst h
    rfl
  · rintro ⟨c, x⟩ h
    subst h
    cases c <;> rfl
  · rintro ⟨c, x⟩
    cases c <;> rfl

/-- C4 witness: a cancelled context gives a clean return with the channel
left open; a live context gives a shutdown return with the channel
closed. -/
theorem C4_perm_error_shutdown_witness :
    ({ chanClosed := false, ctxCancelled := true } : ListenerState).ctxCancelled = true ∧
    servePermError { chanClosed := false, ctxCancelled := true } =
      .ok ({ chanClosed := false, ctxCancelled := true }, .cleanReturn) ∧
    ({ chanClosed := false, ctxCancelled := false } : ListenerState).ctxCancelled = false ∧
    servePermError { chanClosed := false, ctxCancelled := false } =
      .ok ({ chanClosed := true, ctxCancelled := false }, .shutdownReturn) :=
  ⟨rfl, C4_perm_error_shutdown.1 { chanClosed := false, ctxCancelled := true } rfl,
   rfl, C4_perm_error_shutdown.2.1 { chanClosed := false, ctxCancelled := false } rfl⟩

/-! ## Claims about the signal loop and shutdown channel -/

/-- C2. Counterexample to close-once: the claim says every site that closes
the shutdown channel guards the close with select/default, so no execution
closes an already-closed channel. The `sigChan` case of the signal loop in
`main` runs `close(shutdownChan)` with no guard. First conjunct: after one
SIGINT is consumed the channel is closed and a second signal is still
pending, so both `select` cases are ready and Go may pick either; second
conjunct: the schedule that picks the `sigChan` case again closes the
already-closed channel — a runtime panic. -/
theorem C2_unguarded_signal_close_panics :
    signalLoopStep (mainLoopInit [.sigint, .sigint]) .fromSig =
      .ok { pending := [.sigint], chanClosed := true, ctxCancelled := false,
            exited := false } ∧
    signalLoopRun (mainLoopInit [.sigint, .sigint]) [.fromSig, .fromSig] =
      .error () :=
  ⟨rfl, rfl⟩

/-- C2 amended. `emergencyShutdown` does guard its close with
select/default: it never panics on any channel state, and calling it after
the channel is closed is a no-op. The signal-loop closes are not guarded,
and there is an execution of the loop that closes an already-closed
shutdown channel (a panic). -/
theorem C2_close_once_amended :
    (∀ c : Bool, emergencyShutdown c = .ok true) ∧
    emergencyShutdown true = .ok true ∧
    (∃ sigs choices, signalLoopRun (mainLoopInit sigs) choices = .error ()) := by
  refine ⟨?_, rfl, ⟨[.sigint, .sigint], [.fromSig, .fromSig], rfl⟩⟩
  intro c
  cases c <;> rfl

/-- C8. A single SIGINT or SIGTERM drives a graceful shutdown: the
`sigChan` case closes the shutdown channel, the `shutdownChan` case then
runs `rootCancel()` and breaks out of the loop, with no panic; after the
loop, `main` drains the SMTP and POP3 tuples before the process exits
(the drains precede the return in `shutdownSequence`, whose last action is
the process exit). -/
theorem C8_sigint_sigterm_graceful :
    (∀ s : Sig,
        signalLoopRun (mainLoopInit [s]) [.fromSig, .fromShutdown] =
          .ok { pending := [], chanClosed := true, ctxCancelled := true,
                exited := true }) ∧
    shutdownSequence.indexOf .drainSMTP < shutdownSequence.indexOf .processExit ∧
    shutdownSequence.indexOf .drainPOP3 < shutdownSequence.indexOf .processExit ∧
    shutdownSequence.getLast? = some .processExit := by
  refine ⟨?_, by decide, by decide, rfl⟩
  intro s
  cases s <;> rfl

/-! ## Claim about the forced-exit watchdog -/

/-- C7. Once shutdown begins, `main` spawns a single `timedExit` goroutine
whose sleep is the fixed constant `15 * time.Second`; whenever the total
drain time exceeds it, the process is terminated at that constant time —
the same bound for every scenario, whatever the number and duration of the
listener drains. -/
theorem C7_forced_exit_watchdog :
    ∀ s : DrainScenario, totalDrain s > timedExitSleepNs →
      shutdownOutcome s = .forcedExit timedExitSleepNs ∧
      timedExitSleepNs = 15 * 1000000000 := by
  intro s h
  refine ⟨?_, rfl⟩
  unfold shutdownOutcome
  rw [if_pos h]

/-- C7 witness: a single listener draining for 16 s is cut off by the
watchdog at 15 s. -/
theorem C7_forced_exit_watchdog_witness :
    totalDrain { drainTimes := [16000000000] } > timedExitSleepNs ∧
    shutdownOutcome { drainTimes := [16000000000] } =
      .forcedExit timedExitSleepNs :=
  ⟨by decide,
   (C7_forced_exit_watchdog { drainTimes := [16000000000] } (by decide)).1⟩

/-! ## Claim about the wait-group and Drain -/

/-- One step preserves the invariant: the wait-group counter equals the
number of running sessions. -/
theorem popStep_inv (st st2 : PopState) (e : PopEvent)
    (h0 : st.wgCount = st.running.length) (h : popStep st e = some st2) :
    st2.wgCount = st2.running.length := by
  cases e with
  | acceptOk =>
    simp only [popStep, Option.some.injEq] at h
    subst h
    simp [h0]
  | sessionExit sid =>
    simp only [popStep] at h
    by_cases hm : sid ∈ st.running
    · rw [if_pos hm] at h
      simp only [Option.some.injEq] at h
      subst h
      have hlen := List.length_erase_of_mem hm
      have hpos := List.length_pos_of_mem hm
      simp only []
      omega
    · rw [if_neg hm] at h
      exact Option.noConfusion h
  | drainReturn =>
    simp only [popStep] at h
    by_cases hz : st.wgCount = 0
    · rw [if_pos hz] at h
      simp only [Option.some.injEq] at h
      subst h
      exact h0
    · rw [if_neg hz] at h
      exact Option.noConfusion h

/-- Every state reachable by a valid run from an invariant state satisfies
the invariant. -/
theorem popRun_inv (evs : List PopEvent) (st st2 : PopState)
    (h0 : st.wgCount = st.running.length) (h : popRun st evs = some st2) :
    st2.wgCount = st2.running.length := by
  induction evs generalizing st with
  | nil =>
    simp only [popRun, Option.some.injEq] at h
    subst h
    exact h0
  | cons e es ih =>
    rw [popRun] at h
    cases he : popStep st e with
    | none =>
      rw [he] at h
      exact Option.noConfusion h
    | some stm =>
      rw [he] at h
      exact ih stm (popStep_inv st stm e h0 he) h

/-- C6. In every interleaving of accepts, session exits and `Drain`: the
accept branch performs `wg.Add(1)` before spawning the session, so in
every reachable state the wait-group counter equals the number of running
sessions; and since `wg.Wait()` can only return at counter zero, `Drain`
cannot return while any admitted session is still running. -/
theorem C6_waitgroup_guards_drain :
    (∀ evs st, popRun popInit evs = some st → st.wgCount = st.running.length) ∧
    (∀ evs st st2, popRun popInit evs = some st →
        popStep st .drainReturn = some st2 → st.running = []) := by
  constructor
  · intro evs st h
    exact popRun_inv evs popInit st rfl h
  · intro evs st st2 h hd
    have hinv := popRun_inv evs popInit st rfl h
    simp only [popStep] at hd
    by_cases hz : st.wgCount = 0
    · have hlen : st.running.length = 0 := by omega
      exact List.eq_nil_of_length_eq_zero hlen
    · rw [if_neg hz] at hd
      exact Option.noConfusion hd

/-- C6 witness: the run that accepts one connection and sees its session
exit reaches the state with counter zero and no running sessions. -/
theorem C6_waitgroup_guards_drain_witness :
    popRun popInit [.acceptOk, .sessionExit 1] =
      some { wgCount := 0, running := [], nextSid := 2, drained := false } ∧
    ({ wgCount := 0, running := [], nextSid := 2, drained := false } : PopState).wgCount =
      ({ wgCount := 0, running := [], nextSid := 2,
         drained := false } : PopState).running.length :=
  ⟨by decide,
   C6_waitgroup_guards_drain.1 [.acceptOk, .sessionExit 1]
     { wgCount := 0, running := [], nextSid := 2, drained := false } (by decide)⟩

end Inbucket
